import Mathlib

/-
  Shallow embedding of src/src/tpos/merchantnode.cpp (merchant-node peer
  lifecycle state machine of brs-stakenet-core): the peer record, the
  announcement (broadcast) and heartbeat (ping) wire messages, collateral
  verification, signature verification and the PoSe ban logic.

  External collaborators (chain state, registry, signer, clock) are modelled
  as a read-only oracle snapshot (structure Env).  Small inline helpers and
  interval constants that live in the missing merchantnode.h header are
  modelled from the spec and marked as such in their doc comments.
-/

/-- Lifecycle states of a merchant-node record (the MERCHANTNODE_* enum). -/
inductive MNState
  | PRE_ENABLED
  | ENABLED
  | EXPIRED
  | OUTPOINT_SPENT
  | UPDATE_REQUIRED
  | WATCHDOG_EXPIRED
  | NEW_START_REQUIRED
  | POSE_BAN
deriving DecidableEq, Repr

/-- COutPoint: transaction id (abstracted to a number) plus output index. -/
structure Outpoint where
  hash : Nat
  n : Nat
deriving DecidableEq, Repr

/-- CTxIn: previous outpoint plus unlock script (bytes abstracted). -/
structure TxIn where
  prevout : Outpoint
  scriptSig : List Nat
deriving DecidableEq, Repr

/-- CMerchantnodePing: outpoint reference, recent block hash, timestamp and
signature bytes (hashes, keys and signatures abstracted to numbers). -/
structure Ping where
  vin : TxIn
  blockHash : Nat
  sigTime : Int
  vchSig : Nat
deriving DecidableEq, Repr

/-- The default-constructed CMerchantnodePing, used as the "never pinged"
sentinel value. -/
def emptyPing : Ping :=
  { vin := { prevout := { hash := 0, n := 0 }, scriptSig := [] }
    blockHash := 0
    sigTime := 0
    vchSig := 0 }

/-- A UTXO entry as returned by the chain-state oracle (GetUTXOCoin):
value of the output and height of its confirming block. -/
structure Coin where
  nValue : Int
  nHeight : Int
deriving DecidableEq, Repr

/-- A transaction output: value and destination script (abstracted). -/
structure TxOut where
  nValue : Int
  scriptPubKey : Nat
deriving DecidableEq, Repr

/-- A transaction as returned by GetTransaction: its outputs and the hash of
the block containing it. -/
structure Tx where
  vout : List TxOut
  blockHash : Nat
deriving DecidableEq, Repr

/-- The canonical message strings signed by the two wire messages, kept as
structured data: announcement messages concatenate address, timestamp, the
two key identities and the protocol version; ping messages concatenate the
input, the block hash and the timestamp. -/
inductive Msg
  | announce (addr : Nat) (sigTime : Int) (collateralKey : Nat) (mnKey : Nat)
      (nProtocolVersion : Int)
  | ping (vin : TxIn) (blockHash : Nat) (sigTime : Int)
deriving DecidableEq, Repr

/-- Result of CMerchantnode::CheckCollateral. -/
inductive CollateralStatus
  | COLLATERAL_OK
  | COLLATERAL_UTXO_NOT_FOUND
  | COLLATERAL_INVALID_AMOUNT
deriving DecidableEq, Repr

/-- CMerchantnode: the durable per-peer record (merchantnode_info_t fields
plus the mutable lifecycle bookkeeping of CMerchantnode). -/
structure MN where
  nActiveState : MNState
  nProtocolVersion : Int
  sigTime : Int
  vin : TxIn
  addr : Nat
  pubKeyCollateralAddress : Nat
  pubKeyMerchantnode : Nat
  nTimeLastWatchdogVote : Int
  lastPing : Ping
  vchSig : Nat
  nCollateralMinConfBlockHash : Nat
  nPoSeBanScore : Int
  nPoSeBanHeight : Int
  nTimeLastChecked : Int
  fUnitTest : Bool
deriving DecidableEq, Repr

/-- CMerchantnodeBroadcast: the full announcement wire message (it carries
the identity fields of a record, an embedded last ping and the recovery
flag). -/
structure MNB where
  vin : TxIn
  addr : Nat
  pubKeyCollateralAddress : Nat
  pubKeyMerchantnode : Nat
  nProtocolVersion : Int
  sigTime : Int
  vchSig : Nat
  lastPing : Ping
  fRecovery : Bool
  nCollateralMinConfBlockHash : Nat
deriving DecidableEq, Repr

/-- Read-only snapshot of every external collaborator consulted by the
functions of merchantnode.cpp: clock, chain-state oracle, registry,
signature verifier, local identity and network parameters.  The interval
constants at the end are modelled from the spec: they are named constants
declared in the missing merchantnode.h header, consumed here as opaque
network parameters. -/
structure Env where
  shutdownRequested : Bool
  nowTime : Int
  adjustedTime : Int
  lockMainAvailable : Bool
  chainHeight : Int
  getUTXO : Outpoint → Option Coin
  blockIndexHeight : Nat → Option Int
  blockHashAt : Int → Nat
  blockTimeAt : Int → Int
  getTransaction : Nat → Option Tx
  scriptFor : Nat → Nat
  verifyMessage : Nat → Nat → Msg → Bool
  networkSize : Int
  fMerchantNode : Bool
  activeOutpoint : Outpoint
  activePubKeyMerchantnode : Nat
  merchantnodeListSynced : Bool
  merchantnodeSyncIsSynced : Bool
  watchdogActive : Bool
  protocolVersion : Int
  nMasternodeMinimumConfirmations : Int
  COIN : Int
  checkSeconds : Int
  minMnpSeconds : Int
  minMnbSeconds : Int
  expirationSeconds : Int
  watchdogMaxSeconds : Int
  newStartRequiredSeconds : Int
  poseBanMaxScore : Int

/-- Modelled from the spec: header predicate, the record is PoSe-banned. -/
abbrev MN.IsPoSeBanned (mn : MN) : Prop := mn.nActiveState = MNState.POSE_BAN

/-- Modelled from the spec: header predicate, the collateral is spent. -/
abbrev MN.IsOutpointSpent (mn : MN) : Prop :=
  mn.nActiveState = MNState.OUTPOINT_SPENT

/-- Modelled from the spec: header predicate. -/
abbrev MN.IsExpired (mn : MN) : Prop := mn.nActiveState = MNState.EXPIRED

/-- Modelled from the spec: header predicate. -/
abbrev MN.IsWatchdogExpired (mn : MN) : Prop :=
  mn.nActiveState = MNState.WATCHDOG_EXPIRED

/-- Modelled from the spec: header predicate. -/
abbrev MN.IsNewStartRequired (mn : MN) : Prop :=
  mn.nActiveState = MNState.NEW_START_REQUIRED

/-- Modelled from the spec: header predicate. -/
abbrev MN.IsUpdateRequired (mn : MN) : Prop :=
  mn.nActiveState = MNState.UPDATE_REQUIRED

/-- Modelled from the spec: header predicate. -/
abbrev MN.IsEnabled (mn : MN) : Prop := mn.nActiveState = MNState.ENABLED

/-- Modelled from the spec: header predicate, there is a last heartbeat and
it is less than nSeconds old at time t (false when the record never
pinged). -/
abbrev MN.IsPingedWithin (mn : MN) (nSeconds : Int) (t : Int) : Prop :=
  mn.lastPing ≠ emptyPing ∧ t - mn.lastPing.sigTime < nSeconds

/-- Modelled from the spec: header predicate, the last accepted announcement
is less than nSeconds old at the current adjusted network time. -/
abbrev MN.IsBroadcastedWithin (mn : MN) (env : Env) (nSeconds : Int) : Prop :=
  env.adjustedTime - mn.sigTime < nSeconds

/-- Modelled from the spec: the header decays the clamped PoSe ban score one
step downward (never below the negated ban maximum). -/
def MN.DecreasePoSeBanScore (env : Env) (mn : MN) : MN :=
  if mn.nPoSeBanScore > -env.poseBanMaxScore then
    { mn with nPoSeBanScore := mn.nPoSeBanScore - 1 }
  else mn

/-- CMerchantnode::CheckCollateral: resolve the outpoint through the
chain-state oracle; absent or spent gives COLLATERAL_UTXO_NOT_FOUND, a value
other than 1000 * COIN gives COLLATERAL_INVALID_AMOUNT, otherwise
COLLATERAL_OK together with the confirming block height (the height output
parameter is left untouched, hence none, on the failure paths). -/
def CheckCollateral (env : Env) (outpoint : Outpoint) :
    CollateralStatus × Option Int :=
  match env.getUTXO outpoint with
  | none => (CollateralStatus.COLLATERAL_UTXO_NOT_FOUND, none)
  | some c =>
      if c.nValue ≠ 1000 * env.COIN then
        (CollateralStatus.COLLATERAL_INVALID_AMOUNT, none)
      else
        (CollateralStatus.COLLATERAL_OK, some c.nHeight)

/-- Tail of CMerchantnode::Check: the PRE_ENABLED / ENABLED decision. -/
def MN.checkFinal (env : Env) (mn : MN) : MN :=
  if mn.lastPing.sigTime - mn.sigTime < env.minMnpSeconds then
    { mn with nActiveState := MNState.PRE_ENABLED }
  else
    { mn with nActiveState := MNState.ENABLED }

/-- Middle of CMerchantnode::Check: from the UPDATE_REQUIRED test through the
expiration ladder down to the PRE_ENABLED / ENABLED decision. -/
def MN.checkStates (env : Env) (mn : MN) : MN :=
  let fOurMasternode :=
    env.fMerchantNode ∧ env.activePubKeyMerchantnode = mn.pubKeyMerchantnode
  if fOurMasternode ∧ mn.nProtocolVersion < env.protocolVersion then
    { mn with nActiveState := MNState.UPDATE_REQUIRED }
  else
    let fWaitForPing :=
      ¬env.merchantnodeListSynced ∧
        ¬mn.IsPingedWithin env.minMnpSeconds env.adjustedTime
    if fWaitForPing ∧ ¬fOurMasternode ∧
        (mn.IsExpired ∨ mn.IsWatchdogExpired ∨ mn.IsNewStartRequired) then
      mn
    else if ¬fWaitForPing ∨ fOurMasternode then
      if ¬mn.IsPingedWithin env.newStartRequiredSeconds env.adjustedTime then
        { mn with nActiveState := MNState.NEW_START_REQUIRED }
      else
        let fWatchdogActive :=
          env.merchantnodeSyncIsSynced ∧ env.watchdogActive
        let fWatchdogExpired :=
          fWatchdogActive ∧
            env.adjustedTime - mn.nTimeLastWatchdogVote > env.watchdogMaxSeconds
        if fWatchdogExpired then
          { mn with nActiveState := MNState.WATCHDOG_EXPIRED }
        else if ¬mn.IsPingedWithin env.expirationSeconds env.adjustedTime then
          { mn with nActiveState := MNState.EXPIRED }
        else
          MN.checkFinal env mn
    else
      MN.checkFinal env mn

/-- Middle of CMerchantnode::Check: the PoSe ban block, with nHeight the
height resolved earlier (0 under unit-test mode). -/
def MN.checkRest (env : Env) (mn : MN) (nHeight : Int) : MN :=
  if mn.IsPoSeBanned ∧ nHeight < mn.nPoSeBanHeight then
    mn
  else if ¬mn.IsPoSeBanned ∧ mn.nPoSeBanScore ≥ env.poseBanMaxScore then
    { mn with nActiveState := MNState.POSE_BAN
              nPoSeBanHeight := nHeight + env.networkSize }
  else
    let mn1 := if mn.IsPoSeBanned then MN.DecreasePoSeBanScore env mn else mn
    MN.checkStates env mn1

/-- CMerchantnode::Check: re-derive the lifecycle state from the oracle
snapshot.  Early exits: shutdown, the re-check rate limit (unless forced), a
record already in OUTPOINT_SPENT, a failed non-blocking chain lock; outside
unit-test mode a collateral that the verifier no longer finds flips the
record to OUTPOINT_SPENT. -/
def MN.Check (env : Env) (mn : MN) (fForce : Bool) : MN :=
  if env.shutdownRequested then mn
  else if ¬fForce ∧ env.nowTime - mn.nTimeLastChecked < env.checkSeconds then mn
  else if mn.IsOutpointSpent then { mn with nTimeLastChecked := env.nowTime }
  else if mn.fUnitTest then
    MN.checkRest env { mn with nTimeLastChecked := env.nowTime } 0
  else if ¬env.lockMainAvailable then { mn with nTimeLastChecked := env.nowTime }
  else if (CheckCollateral env mn.vin.prevout).1 =
      CollateralStatus.COLLATERAL_UTXO_NOT_FOUND then
    { mn with nActiveState := MNState.OUTPOINT_SPENT
              nTimeLastChecked := env.nowTime }
  else
    MN.checkRest env { mn with nTimeLastChecked := env.nowTime } env.chainHeight

/-- The canonical message an announcement signs. -/
def announceMsg (mnb : MNB) : Msg :=
  Msg.announce mnb.addr mnb.sigTime mnb.pubKeyCollateralAddress
    mnb.pubKeyMerchantnode mnb.nProtocolVersion

/-- The canonical message a ping signs. -/
def pingMsg (p : Ping) : Msg := Msg.ping p.vin p.blockHash p.sigTime

/-- CMerchantnodeBroadcast::CheckSignature: verify the announcement message
under the collateral public key; failure scores 100. -/
def MNB.CheckSignature (env : Env) (mnb : MNB) : Bool × Int :=
  if env.verifyMessage mnb.pubKeyCollateralAddress mnb.vchSig (announceMsg mnb)
  then (true, 0) else (false, 100)

/-- CMerchantnodePing::CheckSignature: verify the ping message under the
operating (merchantnode) public key; failure scores 33. -/
def Ping.CheckSignature (env : Env) (p : Ping) (pubKeyMerchantnode : Nat) :
    Bool × Int :=
  if env.verifyMessage pubKeyMerchantnode p.vchSig (pingMsg p)
  then (true, 0) else (false, 33)

/-- CMerchantnodePing::SimpleCheck: reject (score 1) a timestamp more than
one hour in the future, reject (no score) an unknown block hash. -/
def Ping.SimpleCheck (env : Env) (p : Ping) : Bool × Int :=
  if p.sigTime > env.adjustedTime + 60 * 60 then (false, 1)
  else if env.blockIndexHeight p.blockHash = none then (false, 0)
  else (true, 0)

/-- The block-too-old test of CMerchantnodePing::CheckAndUpdate: the block
hash resolves to a height more than 24 blocks below the current tip. -/
def pingTooOldB (env : Env) (p : Ping) : Bool :=
  match env.blockIndexHeight p.blockHash with
  | some h => decide (h < env.chainHeight - 24)
  | none => false

/-- CMerchantnodePing::CheckAndUpdate applied to an existing record (the
null-record early failure of the C++ is outside this model since every claim
supplies a record): SimpleCheck, the stale-record gates (skipped when the
ping arrived inside a fresh broadcast), the 24-block recency bound, the
anti-spam early-arrival bound, the signature; on success stores the ping as
lastPing, forces Check and signals relay only for ENABLED / EXPIRED /
WATCHDOG_EXPIRED results.  Returns (accepted, misbehavior score, updated
record). -/
def Ping.CheckAndUpdate (env : Env) (p : Ping) (mn : MN)
    (fFromNewBroadcast : Bool) : Bool × Int × MN :=
  if (p.SimpleCheck env).1 = false then (false, (p.SimpleCheck env).2, mn)
  else if fFromNewBroadcast = false ∧ mn.IsUpdateRequired then (false, 0, mn)
  else if fFromNewBroadcast = false ∧ mn.IsNewStartRequired then (false, 0, mn)
  else if pingTooOldB env p then (false, 0, mn)
  else if mn.IsPingedWithin (env.minMnpSeconds - 60) p.sigTime then
    (false, 0, mn)
  else if (p.CheckSignature env mn.pubKeyMerchantnode).1 = false then
    (false, (p.CheckSignature env mn.pubKeyMerchantnode).2, mn)
  else
    let mn2 := MN.Check env { mn with lastPing := p } true
    if mn2.IsEnabled ∨ mn2.IsExpired ∨ mn2.IsWatchdogExpired then
      (true, 0, mn2)
    else
      (false, 0, mn2)

/-- CMerchantnode::UpdateFromNewBroadcast: reject a non-newer timestamp
without the recovery flag; otherwise replace the identity fields, reset the
ban score and height, clear the check cache, run the embedded ping through
CheckAndUpdate (adopting it as lastPing when accepted or empty), and handle
the own-node reactivation branch.  Returns (accepted, updated record). -/
def MN.UpdateFromNewBroadcast (env : Env) (mn : MN) (mnb : MNB) : Bool × MN :=
  if mnb.sigTime ≤ mn.sigTime ∧ ¬mnb.fRecovery then (false, mn)
  else
    let mn1 := { mn with
      pubKeyMerchantnode := mnb.pubKeyMerchantnode
      sigTime := mnb.sigTime
      vchSig := mnb.vchSig
      nProtocolVersion := mnb.nProtocolVersion
      addr := mnb.addr
      nPoSeBanScore := 0
      nPoSeBanHeight := 0
      nTimeLastChecked := 0 }
    let mn2 :=
      if mnb.lastPing = emptyPing then { mn1 with lastPing := mnb.lastPing }
      else
        let r := Ping.CheckAndUpdate env mnb.lastPing mn1 true
        if r.1 = true then { r.2.2 with lastPing := mnb.lastPing } else r.2.2
    if env.fMerchantNode ∧ mn2.pubKeyMerchantnode = env.activePubKeyMerchantnode
    then
      let mn3 := { mn2 with nPoSeBanScore := -env.poseBanMaxScore }
      if mn3.nProtocolVersion = env.protocolVersion then (true, mn3)
      else (false, mn3)
    else (true, mn2)

/-- CMerchantnodeBroadcast::Update: apply the announcement to an existing
record.  Returns (result, misbehavior score, updated record, relay invoked).
Equal timestamp without recovery and strictly older timestamps are silent
rejections; then the record is re-checked, PoSe-banned records reject, a
collateral-key mismatch scores 33, a bad signature scores 100; the full field
replace plus relay runs only when the record has not broadcast within the
minimum broadcast interval or the announcement matches the local operating
identity. -/
def MNB.Update (env : Env) (mnb : MNB) (mn : MN) : Bool × Int × MN × Bool :=
  if mn.sigTime = mnb.sigTime ∧ ¬mnb.fRecovery then (false, 0, mn, false)
  else if mn.sigTime > mnb.sigTime then (false, 0, mn, false)
  else
    let mn1 := MN.Check env mn false
    if mn1.IsPoSeBanned then (false, 0, mn1, false)
    else if mn1.pubKeyCollateralAddress ≠ mnb.pubKeyCollateralAddress then
      (false, 33, mn1, false)
    else if (mnb.CheckSignature env).1 = false then
      (false, (mnb.CheckSignature env).2, mn1, false)
    else
      if ¬mn1.IsBroadcastedWithin env env.minMnbSeconds ∨
          (env.fMerchantNode ∧
            mnb.pubKeyMerchantnode = env.activePubKeyMerchantnode) then
        let r := MN.UpdateFromNewBroadcast env mn1 mnb
        if r.1 = true then (true, 0, MN.Check env r.2 false, true)
        else (true, 0, r.2, false)
      else
        (true, 0, mn1, false)

/-- CMerchantnode::IsInputAssociatedWithPubkey, evaluated on the broadcast
(CMerchantnodeBroadcast derives from CMerchantnode): the transaction that
spawned the collateral pays 1000 * COIN to the collateral-key script. -/
def MNB.IsInputAssociatedWithPubkey (env : Env) (mnb : MNB) : Bool :=
  let payee := env.scriptFor mnb.pubKeyCollateralAddress
  match env.getTransaction mnb.vin.prevout.hash with
  | some tx =>
      tx.vout.any (fun o => o.nValue == 1000 * env.COIN && o.scriptPubKey == payee)
  | none => false

/-- CMerchantnodeBroadcast::CheckOutpoint: the one-time, chain-dependent
validation of an announcement.  The seen-broadcast map of the registry is
modelled as the list of message hashes it holds; erasing a hash filters it
out.  Returns (result, misbehavior score, seen map, updated broadcast); the
score starts from the value the caller handed in (the own-node skip leaves
it untouched). -/
def MNB.CheckOutpoint (env : Env) (mnb : MNB) (nDosIn : Int)
    (seen : List Nat) (hash : Nat) : Bool × Int × List Nat × MNB :=
  if env.fMerchantNode ∧ mnb.vin.prevout = env.activeOutpoint ∧
      mnb.pubKeyMerchantnode = env.activePubKeyMerchantnode then
    (false, nDosIn, seen, mnb)
  else if (mnb.CheckSignature env).1 = false then
    (false, (mnb.CheckSignature env).2, seen, mnb)
  else if ¬env.lockMainAvailable then
    (false, 0, seen.filter (fun a => a != hash), mnb)
  else if (CheckCollateral env mnb.vin.prevout).1 =
      CollateralStatus.COLLATERAL_UTXO_NOT_FOUND then
    (false, 0, seen, mnb)
  else if (CheckCollateral env mnb.vin.prevout).1 =
      CollateralStatus.COLLATERAL_INVALID_AMOUNT then
    (false, 0, seen, mnb)
  else
    let nHeight := ((CheckCollateral env mnb.vin.prevout).2).getD 0
    if env.chainHeight - nHeight + 1 < env.nMasternodeMinimumConfirmations then
      (false, 0, seen.filter (fun a => a != hash), mnb)
    else
      let confHash :=
        env.blockHashAt (nHeight + env.nMasternodeMinimumConfirmations - 1)
      let mnb1 := { mnb with nCollateralMinConfBlockHash := confHash }
      if mnb1.IsInputAssociatedWithPubkey env = false then
        (false, 33, seen, mnb1)
      else
        let hashBlock :=
          match env.getTransaction mnb1.vin.prevout.hash with
          | some tx => tx.blockHash
          | none => 0
        match env.blockIndexHeight hashBlock with
        | some h =>
            if env.blockTimeAt (h + env.nMasternodeMinimumConfirmations - 1) >
                mnb1.sigTime then
              (false, 0, seen, mnb1)
            else (true, 0, seen, mnb1)
        | none => (true, 0, seen, mnb1)

/-- The conjunction of every gate a ping must pass in
CMerchantnodePing::CheckAndUpdate before it is stored as the last heartbeat
(everything up to, but excluding, the relay-eligibility decision). -/
abbrev pingAccepted (env : Env) (p : Ping) (mn : MN)
    (fFromNewBroadcast : Bool) : Prop :=
  (p.SimpleCheck env).1 = true
  ∧ (fFromNewBroadcast = false → ¬mn.IsUpdateRequired ∧ ¬mn.IsNewStartRequired)
  ∧ pingTooOldB env p = false
  ∧ ¬mn.IsPingedWithin (env.minMnpSeconds - 60) p.sigTime
  ∧ (p.CheckSignature env mn.pubKeyMerchantnode).1 = true

/-- A neutral concrete oracle snapshot used to instantiate theorems on
concrete inputs (individual instantiations override single fields). -/
def envBase : Env :=
  { shutdownRequested := false
    nowTime := 1000
    adjustedTime := 1000
    lockMainAvailable := true
    chainHeight := 1000
    getUTXO := fun _ => none
    blockIndexHeight := fun _ => none
    blockHashAt := fun _ => 0
    blockTimeAt := fun _ => 0
    getTransaction := fun _ => none
    scriptFor := fun k => k
    verifyMessage := fun _ _ _ => true
    networkSize := 10
    fMerchantNode := false
    activeOutpoint := { hash := 0, n := 0 }
    activePubKeyMerchantnode := 0
    merchantnodeListSynced := true
    merchantnodeSyncIsSynced := true
    watchdogActive := false
    protocolVersion := 70208
    nMasternodeMinimumConfirmations := 15
    COIN := 100000000
    checkSeconds := 5
    minMnpSeconds := 600
    minMnbSeconds := 300
    expirationSeconds := 3900
    watchdogMaxSeconds := 7200
    newStartRequiredSeconds := 10800
    poseBanMaxScore := 5 }

/-- A concrete peer record used to instantiate theorems. -/
def mnBase : MN :=
  { nActiveState := MNState.ENABLED
    nProtocolVersion := 70208
    sigTime := 100
    vin := { prevout := { hash := 7, n := 0 }, scriptSig := [] }
    addr := 1
    pubKeyCollateralAddress := 5
    pubKeyMerchantnode := 6
    nTimeLastWatchdogVote := 1000
    lastPing := emptyPing
    vchSig := 0
    nCollateralMinConfBlockHash := 0
    nPoSeBanScore := 0
    nPoSeBanHeight := 0
    nTimeLastChecked := 0
    fUnitTest := false }

/-- A concrete announcement used to instantiate theorems. -/
def mnbBase : MNB :=
  { vin := { prevout := { hash := 7, n := 0 }, scriptSig := [] }
    addr := 2
    pubKeyCollateralAddress := 5
    pubKeyMerchantnode := 6
    nProtocolVersion := 70208
    sigTime := 200
    vchSig := 0
    lastPing := emptyPing
    fRecovery := false
    nCollateralMinConfBlockHash := 0 }

/-- A concrete ping used to instantiate theorems. -/
def pingBase : Ping :=
  { vin := { prevout := { hash := 7, n := 0 }, scriptSig := [] }
    blockHash := 3
    sigTime := 500
    vchSig := 0 }

/-- A collateral coin carrying exactly 1000 * COIN, confirmed at height 900. -/
def coinGood : Coin := { nValue := 100000000000, nHeight := 900 }

/-- A coin with a wrong collateral value. -/
def coinBad : Coin := { nValue := 5, nHeight := 900 }

/-- The base snapshot with the collateral outpoint resolving to coinGood. -/
def envUTXO : Env := { envBase with getUTXO := fun _ => some coinGood }

/-- The base snapshot with the collateral outpoint resolving to coinBad. -/
def envBadAmount : Env := { envBase with getUTXO := fun _ => some coinBad }

/-- The base snapshot with a signature verifier that rejects everything. -/
def envNoVerify : Env := { envBase with verifyMessage := fun _ _ _ => false }

/-- An announcement with the same timestamp as mnBase and the recovery flag. -/
def mnbEqRec : MNB := { mnbBase with sigTime := 100, fRecovery := true }

/-- An announcement with the same timestamp as mnBase, no recovery flag. -/
def mnbEqNoRec : MNB := { mnbBase with sigTime := 100 }

/-- The base snapshot where every block hash resolves to height 900 (more
than 24 blocks behind the tip at height 1000). -/
def envOldBlock : Env := { envBase with blockIndexHeight := fun _ => some 900 }

/-- A collateral coin with the right amount confirmed at height 990, fewer
than the minimum confirmations below the tip at height 1000. -/
def coinNear : Coin := { nValue := 100000000000, nHeight := 990 }

/-- The base snapshot with the collateral resolving to coinNear. -/
def envNear : Env := { envBase with getUTXO := fun _ => some coinNear }

/-- Snapshot with a known recent block and a live collateral, under which a
fresh ping is accepted end to end. -/
def envPing : Env := { envUTXO with blockIndexHeight := fun _ => some 990 }

/-- A ping late enough after the announcement of mnBase to reach ENABLED. -/
def pingW : Ping := { pingBase with sigTime := 700 }

/-- A spent record whose check cache is fresh at the base clock. -/
def mnSpentRecent : MN :=
  { mnBase with nActiveState := MNState.OUTPOINT_SPENT
                nTimeLastChecked := 1000 }

/-- The base snapshot with the adjusted network time pulled back to 100, so
that mnBase (sigTime 100) counts as recently broadcast. -/
def envAdj100 : Env := { envBase with adjustedTime := 100 }

/-- A spent record otherwise identical to mnBase. -/
def mnSpent : MN := { mnBase with nActiveState := MNState.OUTPOINT_SPENT }

/-- The PRE_ENABLED / ENABLED tail only rewrites the state field. -/
theorem checkFinal_shape (env : Env) (mn : MN) :
    ∃ s, MN.checkFinal env mn = { mn with nActiveState := s } := by
  simp only [MN.checkFinal]
  split
  · exact ⟨_, rfl⟩
  · exact ⟨_, rfl⟩

/-- The expiration ladder only rewrites the state field. -/
theorem checkStates_shape (env : Env) (mn : MN) :
    ∃ s, MN.checkStates env mn = { mn with nActiveState := s } := by
  simp only [MN.checkStates]
  repeat' split
  all_goals first
    | exact ⟨_, rfl⟩
    | exact checkFinal_shape env mn

/-- The PoSe block plus the ladder only rewrite state, score and height. -/
theorem checkRest_shape (env : Env) (mn : MN) (nHeight : Int) :
    ∃ s sc bh, MN.checkRest env mn nHeight =
      { mn with nActiveState := s, nPoSeBanScore := sc,
                nPoSeBanHeight := bh } := by
  simp only [MN.checkRest, MN.DecreasePoSeBanScore]
  repeat' split
  all_goals first
    | exact ⟨_, _, _, rfl⟩
    | (obtain ⟨s, h⟩ := checkStates_shape env _
       rw [h]
       exact ⟨_, _, _, rfl⟩)

/-- Check only rewrites the lifecycle bookkeeping fields (state, ban score,
ban height, check time); every identity field survives every branch. -/
theorem check_shape (env : Env) (mn : MN) (f : Bool) :
    ∃ s sc bh tc, MN.Check env mn f =
      { mn with nActiveState := s, nPoSeBanScore := sc,
                nPoSeBanHeight := bh, nTimeLastChecked := tc } := by
  simp only [MN.Check]
  repeat' split
  all_goals first
    | exact ⟨_, _, _, _, rfl⟩
    | (obtain ⟨s, sc, bh, h⟩ := checkRest_shape env _ _
       rw [h]
       exact ⟨_, _, _, _, rfl⟩)

theorem check_addr (env : Env) (mn : MN) (f : Bool) :
    (MN.Check env mn f).addr = mn.addr := by
  obtain ⟨s, sc, bh, tc, h⟩ := check_shape env mn f
  rw [h]

theorem check_pubKeyCollateralAddress (env : Env) (mn : MN) (f : Bool) :
    (MN.Check env mn f).pubKeyCollateralAddress = mn.pubKeyCollateralAddress := by
  obtain ⟨s, sc, bh, tc, h⟩ := check_shape env mn f
  rw [h]

theorem check_pubKeyMerchantnode (env : Env) (mn : MN) (f : Bool) :
    (MN.Check env mn f).pubKeyMerchantnode = mn.pubKeyMerchantnode := by
  obtain ⟨s, sc, bh, tc, h⟩ := check_shape env mn f
  rw [h]

theorem check_sigTime (env : Env) (mn : MN) (f : Bool) :
    (MN.Check env mn f).sigTime = mn.sigTime := by
  obtain ⟨s, sc, bh, tc, h⟩ := check_shape env mn f
  rw [h]

theorem check_vchSig (env : Env) (mn : MN) (f : Bool) :
    (MN.Check env mn f).vchSig = mn.vchSig := by
  obtain ⟨s, sc, bh, tc, h⟩ := check_shape env mn f
  rw [h]

theorem check_nProtocolVersion (env : Env) (mn : MN) (f : Bool) :
    (MN.Check env mn f).nProtocolVersion = mn.nProtocolVersion := by
  obtain ⟨s, sc, bh, tc, h⟩ := check_shape env mn f
  rw [h]

theorem check_lastPing (env : Env) (mn : MN) (f : Bool) :
    (MN.Check env mn f).lastPing = mn.lastPing := by
  obtain ⟨s, sc, bh, tc, h⟩ := check_shape env mn f
  rw [h]

/-- On a record whose collateral is already marked spent, Check returns
before re-deriving anything: at most the check timestamp moves. -/
theorem check_spent (env : Env) (mn : MN) (f : Bool)
    (h : mn.nActiveState = MNState.OUTPOINT_SPENT) :
    MN.Check env mn f = mn ∨
      MN.Check env mn f = { mn with nTimeLastChecked := env.nowTime } := by
  simp only [MN.Check]
  split
  · exact Or.inl rfl
  split
  · exact Or.inl rfl
  exact Or.inr rfl

theorem check_spent_state (env : Env) (mn : MN) (f : Bool)
    (h : mn.nActiveState = MNState.OUTPOINT_SPENT) :
    (MN.Check env mn f).nActiveState = MNState.OUTPOINT_SPENT := by
  rcases check_spent env mn f h with h1 | h1 <;> rw [h1] <;> exact h

theorem check_spent_score (env : Env) (mn : MN) (f : Bool)
    (h : mn.nActiveState = MNState.OUTPOINT_SPENT) :
    (MN.Check env mn f).nPoSeBanScore = mn.nPoSeBanScore ∧
    (MN.Check env mn f).nPoSeBanHeight = mn.nPoSeBanHeight := by
  rcases check_spent env mn f h with h1 | h1 <;> rw [h1] <;> exact ⟨rfl, rfl⟩

/-- A ping applied to a spent record can touch at most the stored heartbeat
and the check timestamp: state, identity and ban bookkeeping survive
CheckAndUpdate unchanged. -/
theorem checkAndUpdate_spent (env : Env) (p : Ping) (mn : MN) (b : Bool)
    (h : mn.nActiveState = MNState.OUTPOINT_SPENT) :
    (Ping.CheckAndUpdate env p mn b).2.2.nActiveState = MNState.OUTPOINT_SPENT ∧
    (Ping.CheckAndUpdate env p mn b).2.2.addr = mn.addr ∧
    (Ping.CheckAndUpdate env p mn b).2.2.pubKeyCollateralAddress =
      mn.pubKeyCollateralAddress ∧
    (Ping.CheckAndUpdate env p mn b).2.2.pubKeyMerchantnode =
      mn.pubKeyMerchantnode ∧
    (Ping.CheckAndUpdate env p mn b).2.2.sigTime = mn.sigTime ∧
    (Ping.CheckAndUpdate env p mn b).2.2.vchSig = mn.vchSig ∧
    (Ping.CheckAndUpdate env p mn b).2.2.nProtocolVersion =
      mn.nProtocolVersion ∧
    (Ping.CheckAndUpdate env p mn b).2.2.nPoSeBanScore = mn.nPoSeBanScore ∧
    (Ping.CheckAndUpdate env p mn b).2.2.nPoSeBanHeight = mn.nPoSeBanHeight := by
  simp only [Ping.CheckAndUpdate]
  repeat' split
  all_goals
    first
      | exact ⟨h, rfl, rfl, rfl, rfl, rfl, rfl, rfl, rfl⟩
      | (rcases check_spent env { mn with lastPing := p } true h with h1 | h1 <;>
          rw [h1] <;> exact ⟨h, rfl, rfl, rfl, rfl, rfl, rfl, rfl, rfl⟩)

/-- A strictly newer announcement applied through UpdateFromNewBroadcast to a
spent record (on a node that is not itself a merchant node) is accepted,
replaces the identity fields, resets the ban bookkeeping and leaves the
state OUTPOINT_SPENT. -/
theorem ufnb_spent (env : Env) (mn : MN) (mnb : MNB)
    (hs : mn.nActiveState = MNState.OUTPOINT_SPENT)
    (hlt : mn.sigTime < mnb.sigTime)
    (hfm : env.fMerchantNode = false) :
    (MN.UpdateFromNewBroadcast env mn mnb).1 = true ∧
    (MN.UpdateFromNewBroadcast env mn mnb).2.nActiveState =
      MNState.OUTPOINT_SPENT ∧
    (MN.UpdateFromNewBroadcast env mn mnb).2.addr = mnb.addr ∧
    (MN.UpdateFromNewBroadcast env mn mnb).2.pubKeyMerchantnode =
      mnb.pubKeyMerchantnode ∧
    (MN.UpdateFromNewBroadcast env mn mnb).2.sigTime = mnb.sigTime ∧
    (MN.UpdateFromNewBroadcast env mn mnb).2.nProtocolVersion =
      mnb.nProtocolVersion ∧
    (MN.UpdateFromNewBroadcast env mn mnb).2.vchSig = mnb.vchSig ∧
    (MN.UpdateFromNewBroadcast env mn mnb).2.nPoSeBanScore = 0 ∧
    (MN.UpdateFromNewBroadcast env mn mnb).2.nPoSeBanHeight = 0 := by
  have hno : ¬(mnb.sigTime ≤ mn.sigTime ∧ ¬mnb.fRecovery = true) := by
    rintro ⟨hle, -⟩; omega
  simp only [MN.UpdateFromNewBroadcast]
  rw [if_neg hno]
  obtain ⟨a1, a2, a3, a4, a5, a6, a7, a8, a9⟩ :=
    checkAndUpdate_spent env mnb.lastPing
      { mn with pubKeyMerchantnode := mnb.pubKeyMerchantnode
                sigTime := mnb.sigTime
                vchSig := mnb.vchSig
                nProtocolVersion := mnb.nProtocolVersion
                addr := mnb.addr
                nPoSeBanScore := 0
                nPoSeBanHeight := 0
                nTimeLastChecked := 0 } true hs
  simp only [hfm, Bool.false_eq_true, false_and, if_false]
  split
  · refine ⟨?_, ?_, ?_, ?_, ?_, ?_, ?_, ?_, ?_⟩ <;> trivial
  · split <;> refine ⟨?_, ?_, ?_, ?_, ?_, ?_, ?_, ?_, ?_⟩ <;> trivial

/-- Claim C1: a record whose lifecycleState is OUTPOINT_SPENT keeps that
state across every Check call, whatever the force flag and oracle inputs;
and whenever Check, outside test mode, reaches the collateral verifier and
the verifier reports the outpoint absent or spent, Check sets the state to
OUTPOINT_SPENT, stamps the check time and stops without touching anything
else. -/
theorem claim_C1 :
    (∀ (env : Env) (mn : MN) (f : Bool),
        mn.nActiveState = MNState.OUTPOINT_SPENT →
        (MN.Check env mn f).nActiveState = MNState.OUTPOINT_SPENT)
    ∧ (∀ (env : Env) (mn : MN) (f : Bool),
        env.shutdownRequested = false →
        (f = true ∨ ¬(env.nowTime - mn.nTimeLastChecked < env.checkSeconds)) →
        mn.fUnitTest = false →
        env.lockMainAvailable = true →
        (CheckCollateral env mn.vin.prevout).1 =
          CollateralStatus.COLLATERAL_UTXO_NOT_FOUND →
        MN.Check env mn f =
          { mn with nActiveState := MNState.OUTPOINT_SPENT
                    nTimeLastChecked := env.nowTime }) := by
  constructor
  · intro env mn f h
    exact check_spent_state env mn f h
  · intro env mn f hsd hw hut hlock hcoll
    have hwin : ¬(¬f = true ∧ env.nowTime - mn.nTimeLastChecked <
        env.checkSeconds) := by
      rcases hw with h | h
      · simp [h]
      · exact fun hc => h hc.2
    simp only [MN.Check]
    rw [if_neg (show ¬env.shutdownRequested = true by simp [hsd])]
    rw [if_neg hwin]
    by_cases hsp : mn.nActiveState = MNState.OUTPOINT_SPENT
    · rw [if_pos (show mn.IsOutpointSpent from hsp), ← hsp]
    · rw [if_neg (show ¬mn.IsOutpointSpent from hsp)]
      rw [if_neg (show ¬mn.fUnitTest = true by simp [hut])]
      rw [if_neg (show ¬¬(env.lockMainAvailable = true) from fun hc => hc hlock)]
      rw [if_pos hcoll]

/-- Claim C1 witness: concrete instances of both conjuncts. -/
theorem claim_C1_witness :
    (MN.Check envBase { mnBase with nActiveState := MNState.OUTPOINT_SPENT }
        true).nActiveState = MNState.OUTPOINT_SPENT
    ∧ MN.Check envBase mnBase true =
        { mnBase with nActiveState := MNState.OUTPOINT_SPENT
                      nTimeLastChecked := envBase.nowTime } :=
  ⟨claim_C1.1 envBase { mnBase with nActiveState := MNState.OUTPOINT_SPENT }
      true rfl,
   claim_C1.2 envBase mnBase true rfl (Or.inl rfl) rfl rfl (by decide)⟩

/-- Claim C2: when Check reaches its PoSe block (no shutdown, rate limit
passed, record not spent, non-test mode, chain lock held, collateral still
found), a record that is not PoSe-banned whose ban score has reached the
configured maximum is set to POSE_BAN with ban height equal to the current
chain height plus the network size and Check stops; and a record already
PoSe-banned whose ban height lies strictly above the current height is left
untouched apart from the check timestamp. -/
theorem claim_C2 :
    ∀ (env : Env) (mn : MN) (f : Bool),
      env.shutdownRequested = false →
      (f = true ∨ ¬(env.nowTime - mn.nTimeLastChecked < env.checkSeconds)) →
      mn.fUnitTest = false →
      env.lockMainAvailable = true →
      (CheckCollateral env mn.vin.prevout).1 ≠
        CollateralStatus.COLLATERAL_UTXO_NOT_FOUND →
      mn.nActiveState ≠ MNState.OUTPOINT_SPENT →
      ((mn.nActiveState ≠ MNState.POSE_BAN →
          env.poseBanMaxScore ≤ mn.nPoSeBanScore →
          MN.Check env mn f =
            { mn with nActiveState := MNState.POSE_BAN
                      nPoSeBanHeight := env.chainHeight + env.networkSize
                      nTimeLastChecked := env.nowTime })
        ∧ (mn.nActiveState = MNState.POSE_BAN →
            env.chainHeight < mn.nPoSeBanHeight →
            MN.Check env mn f = { mn with nTimeLastChecked := env.nowTime })) := by
  intro env mn f hsd hw hut hlock hcoll hsp
  have hwin : ¬(¬f = true ∧ env.nowTime - mn.nTimeLastChecked <
      env.checkSeconds) := by
    rcases hw with h | h
    · simp [h]
    · exact fun hc => h hc.2
  have hred : MN.Check env mn f =
      MN.checkRest env { mn with nTimeLastChecked := env.nowTime }
        env.chainHeight := by
    simp only [MN.Check]
    rw [if_neg (show ¬env.shutdownRequested = true by simp [hsd])]
    rw [if_neg hwin]
    rw [if_neg (show ¬mn.IsOutpointSpent from hsp)]
    rw [if_neg (show ¬mn.fUnitTest = true by simp [hut])]
    rw [if_neg (show ¬¬(env.lockMainAvailable = true) from fun hc => hc hlock)]
    rw [if_neg hcoll]
  constructor
  · intro hnb hmax
    rw [hred]
    simp only [MN.checkRest]
    rw [if_neg (by rintro ⟨hb, -⟩; exact hnb hb)]
    rw [if_pos (show ¬({ mn with nTimeLastChecked := env.nowTime} : MN).IsPoSeBanned
        ∧ ({ mn with nTimeLastChecked := env.nowTime} : MN).nPoSeBanScore ≥
          env.poseBanMaxScore from ⟨hnb, hmax⟩)]
  · intro hb hlt
    rw [hred]
    simp only [MN.checkRest]
    rw [if_pos (show ({ mn with nTimeLastChecked := env.nowTime} : MN).IsPoSeBanned
        ∧ env.chainHeight <
          ({ mn with nTimeLastChecked := env.nowTime} : MN).nPoSeBanHeight
        from ⟨hb, hlt⟩)]

/-- Claim C2 witness: both conjuncts at concrete inputs (collateral present,
ban score at the maximum, respectively an already banned record below its
ban height). -/
theorem claim_C2_witness :
    MN.Check envUTXO { mnBase with nPoSeBanScore := 5 } true =
      { mnBase with nPoSeBanScore := 5, nActiveState := MNState.POSE_BAN,
                    nPoSeBanHeight := 1010, nTimeLastChecked := 1000 }
    ∧ MN.Check envUTXO
      { mnBase with nActiveState := MNState.POSE_BAN, nPoSeBanHeight := 2000 }
      true =
      { mnBase with nActiveState := MNState.POSE_BAN, nPoSeBanHeight := 2000,
                    nTimeLastChecked := 1000 } :=
  ⟨(claim_C2 envUTXO { mnBase with nPoSeBanScore := 5 } true rfl (Or.inl rfl)
      rfl rfl (by decide) (by decide)).1 (by decide) (by decide),
   (claim_C2 envUTXO
      { mnBase with nActiveState := MNState.POSE_BAN, nPoSeBanHeight := 2000 }
      true rfl (Or.inl rfl) rfl rfl (by decide)
      (by decide)).2 rfl (by decide)⟩

/-- Claim C3: an announcement whose sigTime is strictly older than the
existing record is always rejected by Update with score 0, the record is
untouched and nothing is relayed, whatever the signature validity or the
recovery flag. -/
theorem claim_C3 :
    ∀ (env : Env) (mnb : MNB) (mn : MN),
      mnb.sigTime < mn.sigTime →
      MNB.Update env mnb mn = (false, 0, mn, false) := by
  intro env mnb mn h
  simp only [MNB.Update]
  rw [if_neg (show ¬(mn.sigTime = mnb.sigTime ∧ ¬mnb.fRecovery = true) by
    rintro ⟨he, -⟩; omega)]
  rw [if_pos (show mn.sigTime > mnb.sigTime from h)]

/-- Claim C3 witness: a concrete strictly older announcement is rejected. -/
theorem claim_C3_witness :
    MNB.Update envBase { mnbBase with sigTime := 50 } mnBase =
      (false, 0, mnBase, false) :=
  claim_C3 envBase { mnbBase with sigTime := 50 } mnBase (by decide)

/-- Claim C8: CheckCollateral returns COLLATERAL_UTXO_NOT_FOUND when the
oracle has no unspent output for the outpoint, COLLATERAL_INVALID_AMOUNT
when the output exists with a value other than the fixed collateral amount,
and otherwise COLLATERAL_OK together with the confirming block height. -/
theorem claim_C8 :
    ∀ (env : Env) (o : Outpoint),
      (env.getUTXO o = none →
        CheckCollateral env o =
          (CollateralStatus.COLLATERAL_UTXO_NOT_FOUND, none))
      ∧ (∀ c : Coin, env.getUTXO o = some c →
          (c.nValue ≠ 1000 * env.COIN →
            CheckCollateral env o =
              (CollateralStatus.COLLATERAL_INVALID_AMOUNT, none))
          ∧ (c.nValue = 1000 * env.COIN →
            CheckCollateral env o =
              (CollateralStatus.COLLATERAL_OK, some c.nHeight))) := by
  intro env o
  refine ⟨fun h => by simp [CheckCollateral, h], fun c hc => ⟨?_, ?_⟩⟩
  · intro hv
    simp [CheckCollateral, hc, hv]
  · intro hv
    simp [CheckCollateral, hc, hv]

/-- Claim C8 witness: the three verdicts at concrete inputs. -/
theorem claim_C8_witness :
    CheckCollateral envBase { hash := 7, n := 0 } =
      (CollateralStatus.COLLATERAL_UTXO_NOT_FOUND, none)
    ∧ CheckCollateral envBadAmount { hash := 7, n := 0 } =
      (CollateralStatus.COLLATERAL_INVALID_AMOUNT, none)
    ∧ CheckCollateral envUTXO { hash := 7, n := 0 } =
      (CollateralStatus.COLLATERAL_OK, some coinGood.nHeight) :=
  ⟨(claim_C8 envBase { hash := 7, n := 0 }).1 rfl,
   ((claim_C8 envBadAmount { hash := 7, n := 0 }).2 coinBad rfl).1 (by decide),
   ((claim_C8 envUTXO { hash := 7, n := 0 }).2 coinGood rfl).2 (by decide)⟩

/-- Claim C9: a failed announcement signature makes CheckSignature return
false with score exactly 100, a failed ping signature makes CheckSignature
return false with score exactly 33, and the ping score is the smaller of
the two. -/
theorem claim_C9 :
    ∀ (env : Env) (mnb : MNB) (p : Ping) (k : Nat),
      (env.verifyMessage mnb.pubKeyCollateralAddress mnb.vchSig
          (announceMsg mnb) = false →
        mnb.CheckSignature env = (false, 100))
      ∧ (env.verifyMessage k p.vchSig (pingMsg p) = false →
        p.CheckSignature env k = (false, 33))
      ∧ (33 : Int) < 100 := by
  intro env mnb p k
  refine ⟨fun h => ?_, fun h => ?_, by norm_num⟩
  · simp [MNB.CheckSignature, h]
  · simp [Ping.CheckSignature, h]

/-- Claim C9 witness: both failure scores at concrete inputs. -/
theorem claim_C9_witness :
    mnbBase.CheckSignature envNoVerify = (false, 100)
    ∧ pingBase.CheckSignature envNoVerify 6 = (false, 33) :=
  ⟨(claim_C9 envNoVerify mnbBase pingBase 6).1 rfl,
   (claim_C9 envNoVerify mnbBase pingBase 6).2.1 rfl⟩

/-- Claim C4 counterexample: an announcement with equal timestamp and the
recovery flag set is nevertheless rejected by Update when its signature does
not verify, so the recovery flag alone does not guarantee acceptance. -/
theorem claim_C4_counterexample :
    mnbEqRec.sigTime = mnBase.sigTime ∧ mnbEqRec.fRecovery = true ∧
    (MNB.Update envNoVerify mnbEqRec mnBase).1 = false := by decide

/-- Claim C4 (amended): an equal-timestamp announcement without the recovery
flag is a no-op (Update returns false with score 0 and leaves the record and
relay untouched); with the recovery flag set it is accepted provided the
remaining checks pass: the re-checked record is not PoSe-banned, the
collateral key matches and the signature verifies. -/
theorem claim_C4 :
    ∀ (env : Env) (mnb : MNB) (mn : MN),
      mn.sigTime = mnb.sigTime →
      ((mnb.fRecovery = false →
          MNB.Update env mnb mn = (false, 0, mn, false))
       ∧ (mnb.fRecovery = true →
          (MN.Check env mn false).nActiveState ≠ MNState.POSE_BAN →
          mn.pubKeyCollateralAddress = mnb.pubKeyCollateralAddress →
          (mnb.CheckSignature env).1 = true →
          (MNB.Update env mnb mn).1 = true)) := by
  intro env mnb mn he
  constructor
  · intro hrec
    simp only [MNB.Update]
    rw [if_pos (show mn.sigTime = mnb.sigTime ∧ ¬mnb.fRecovery = true from
      ⟨he, by simp [hrec]⟩)]
  · intro hrec hban hkey hsig
    simp only [MNB.Update]
    rw [if_neg (show ¬(mn.sigTime = mnb.sigTime ∧ ¬mnb.fRecovery = true) by
      rintro ⟨-, hr⟩; exact hr hrec)]
    rw [if_neg (show ¬mn.sigTime > mnb.sigTime by omega)]
    rw [if_neg (show ¬(MN.Check env mn false).IsPoSeBanned from hban)]
    rw [if_neg (show ¬((MN.Check env mn false).pubKeyCollateralAddress ≠
        mnb.pubKeyCollateralAddress) by
      rw [check_pubKeyCollateralAddress, hkey]
      simp)]
    rw [if_neg (show ¬((mnb.CheckSignature env).1 = false) by simp [hsig])]
    split
    · split
      · rfl
      · rfl
    · rfl

/-- Claim C4 witness: both conjuncts at concrete inputs. -/
theorem claim_C4_witness :
    MNB.Update envBase mnbEqNoRec mnBase = (false, 0, mnBase, false)
    ∧ (MNB.Update envBase mnbEqRec mnBase).1 = true :=
  ⟨(claim_C4 envBase mnbEqNoRec mnBase rfl).1 rfl,
   (claim_C4 envBase mnbEqRec mnBase rfl).2 rfl (by decide) rfl rfl⟩

/-- Claim C5: a ping whose referenced block resolves to a height more than
24 blocks below the current tip is rejected by CheckAndUpdate and the target
record, in particular its stored lastPing heartbeat, is left untouched. -/
theorem claim_C5 :
    ∀ (env : Env) (p : Ping) (mn : MN) (b : Bool) (h : Int),
      env.blockIndexHeight p.blockHash = some h →
      h < env.chainHeight - 24 →
      (Ping.CheckAndUpdate env p mn b).1 = false ∧
      (Ping.CheckAndUpdate env p mn b).2.2 = mn := by
  intro env p mn b h hbi hlt
  have htoo : pingTooOldB env p = true := by
    simp [pingTooOldB, hbi]
    omega
  simp only [Ping.CheckAndUpdate]
  split
  · exact ⟨rfl, rfl⟩
  split
  · exact ⟨rfl, rfl⟩
  split
  · exact ⟨rfl, rfl⟩
  exact ⟨rfl, rfl⟩

/-- Claim C5 witness: a concrete too-old ping is rejected without change. -/
theorem claim_C5_witness :
    (Ping.CheckAndUpdate envOldBlock pingBase mnBase false).1 = false ∧
    (Ping.CheckAndUpdate envOldBlock pingBase mnBase false).2.2 = mnBase :=
  claim_C5 envOldBlock pingBase mnBase false 900 rfl (by decide)

/-- Claim C6: CheckAndUpdate signals relay (returns true) exactly when the
ping passes every gate and, after the ping is stored as the last heartbeat
and a forced Check recomputes the state, that state is ENABLED, EXPIRED or
WATCHDOG_EXPIRED; moreover whenever the gates pass, the returned record
really is the stored-ping record after the forced Check. -/
theorem claim_C6 :
    ∀ (env : Env) (p : Ping) (mn : MN) (b : Bool),
      ((Ping.CheckAndUpdate env p mn b).1 = true ↔
        pingAccepted env p mn b ∧
          ((MN.Check env { mn with lastPing := p } true).nActiveState =
              MNState.ENABLED ∨
           (MN.Check env { mn with lastPing := p } true).nActiveState =
              MNState.EXPIRED ∨
           (MN.Check env { mn with lastPing := p } true).nActiveState =
              MNState.WATCHDOG_EXPIRED))
      ∧ (pingAccepted env p mn b →
          (Ping.CheckAndUpdate env p mn b).2.2 =
            MN.Check env { mn with lastPing := p } true) := by
  intro env p mn b
  simp only [Ping.CheckAndUpdate, pingAccepted]
  repeat' split
  all_goals simp_all

/-- Claim C6 witness: a concrete accepted ping, stored and re-checked. -/
theorem claim_C6_witness :
    (Ping.CheckAndUpdate envPing pingW mnBase true).2.2 =
      MN.Check envPing { mnBase with lastPing := pingW } true :=
  (claim_C6 envPing pingW mnBase true).2 (by decide)

/-- Claim C7: once CheckOutpoint is past the own-node skip, the signature
check and the chain lock, a collateral that resolves OK but whose
confirmation depth is below the network minimum makes it return false AND
evict the announcement hash from the seen-broadcast map (so the message can
be retried), whereas a COLLATERAL_UTXO_NOT_FOUND or
COLLATERAL_INVALID_AMOUNT verdict returns false with the seen map, score
and broadcast untouched (a permanent rejection). -/
theorem claim_C7 :
    ∀ (env : Env) (mnb : MNB) (d : Int) (seen : List Nat) (hash : Nat),
      ¬(env.fMerchantNode = true ∧ mnb.vin.prevout = env.activeOutpoint ∧
          mnb.pubKeyMerchantnode = env.activePubKeyMerchantnode) →
      (mnb.CheckSignature env).1 = true →
      env.lockMainAvailable = true →
      ((∀ c : Coin, env.getUTXO mnb.vin.prevout = some c →
          c.nValue = 1000 * env.COIN →
          env.chainHeight - c.nHeight + 1 <
            env.nMasternodeMinimumConfirmations →
          (MNB.CheckOutpoint env mnb d seen hash).1 = false ∧
          (MNB.CheckOutpoint env mnb d seen hash).2.2.1 =
            seen.filter (fun a => a != hash) ∧
          hash ∉ (MNB.CheckOutpoint env mnb d seen hash).2.2.1)
       ∧ (env.getUTXO mnb.vin.prevout = none →
          MNB.CheckOutpoint env mnb d seen hash = (false, 0, seen, mnb))
       ∧ (∀ c : Coin, env.getUTXO mnb.vin.prevout = some c →
          c.nValue ≠ 1000 * env.COIN →
          MNB.CheckOutpoint env mnb d seen hash = (false, 0, seen, mnb))) := by
  intro env mnb d seen hash hown hsig hlock
  refine ⟨?_, ?_, ?_⟩
  · intro c hc hv hdepth
    have hcc : CheckCollateral env mnb.vin.prevout =
        (CollateralStatus.COLLATERAL_OK, some c.nHeight) := by
      simp [CheckCollateral, hc, hv]
    refine ⟨?_, ?_, ?_⟩ <;>
      simp [MNB.CheckOutpoint, hcc, hown, hsig, hlock, hdepth,
        List.mem_filter]
  · intro hc
    have hcc : CheckCollateral env mnb.vin.prevout =
        (CollateralStatus.COLLATERAL_UTXO_NOT_FOUND, none) := by
      simp [CheckCollateral, hc]
    simp [MNB.CheckOutpoint, hcc, hown, hsig, hlock]
  · intro c hc hv
    have hcc : CheckCollateral env mnb.vin.prevout =
        (CollateralStatus.COLLATERAL_INVALID_AMOUNT, none) := by
      simp [CheckCollateral, hc, hv]
    simp [MNB.CheckOutpoint, hcc, hown, hsig, hlock]

/-- Claim C7 witness: the three behaviors at concrete inputs, with hash 42
sitting in the seen map. -/
theorem claim_C7_witness :
    ((MNB.CheckOutpoint envNear mnbBase 0 [42] 42).1 = false ∧
      (MNB.CheckOutpoint envNear mnbBase 0 [42] 42).2.2.1 =
        [42].filter (fun a => a != 42) ∧
      42 ∉ (MNB.CheckOutpoint envNear mnbBase 0 [42] 42).2.2.1) ∧
    MNB.CheckOutpoint envBase mnbBase 0 [42] 42 = (false, 0, [42], mnbBase) ∧
    MNB.CheckOutpoint envBadAmount mnbBase 0 [42] 42 =
      (false, 0, [42], mnbBase) :=
  ⟨(claim_C7 envNear mnbBase 0 [42] 42 (by decide) rfl rfl).1 coinNear rfl
      (by decide) (by decide),
   (claim_C7 envBase mnbBase 0 [42] 42 (by decide) rfl rfl).2.1 rfl,
   (claim_C7 envBadAmount mnbBase 0 [42] 42 (by decide) rfl rfl).2.2 coinBad
      rfl (by decide)⟩

/-- Claim C10 counterexample: a strictly newer, key-matching,
signature-valid announcement against an OUTPOINT_SPENT record is accepted
(Update returns true) yet neither applied nor relayed, because the record
counts as recently broadcast: the full field replace and the relay are
guarded by the minimum-broadcast-interval test that the claim omits. -/
theorem claim_C10_counterexample :
    mnSpentRecent.nActiveState = MNState.OUTPOINT_SPENT ∧
    mnSpentRecent.sigTime < mnbBase.sigTime ∧
    mnSpentRecent.pubKeyCollateralAddress = mnbBase.pubKeyCollateralAddress ∧
    (mnbBase.CheckSignature envAdj100).1 = true ∧
    (MNB.Update envAdj100 mnbBase mnSpentRecent).1 = true ∧
    (MNB.Update envAdj100 mnbBase mnSpentRecent).2.2.1.addr ≠ mnbBase.addr ∧
    (MNB.Update envAdj100 mnbBase mnSpentRecent).2.2.2 = false := by decide

/-- Claim C10 (amended): the only lifecycle state Update rejects is
POSE_BAN.  A strictly newer announcement with matching collateral key and
valid signature against an OUTPOINT_SPENT record is accepted, and provided
additionally that the record has not broadcast within the minimum broadcast
interval and the local node is not running as a merchant node, it is fully
applied (field replace, ban-score and ban-height reset) and relayed, while
the lifecycle state stays OUTPOINT_SPENT because Check returns immediately
for spent records. -/
theorem claim_C10 :
    ∀ (env : Env) (mnb : MNB) (mn : MN),
      mn.nActiveState = MNState.OUTPOINT_SPENT →
      mn.sigTime < mnb.sigTime →
      mn.pubKeyCollateralAddress = mnb.pubKeyCollateralAddress →
      (mnb.CheckSignature env).1 = true →
      env.fMerchantNode = false →
      ¬(env.adjustedTime - mn.sigTime < env.minMnbSeconds) →
      (MNB.Update env mnb mn).1 = true ∧
      (MNB.Update env mnb mn).2.1 = 0 ∧
      (MNB.Update env mnb mn).2.2.2 = true ∧
      (MNB.Update env mnb mn).2.2.1.nActiveState = MNState.OUTPOINT_SPENT ∧
      (MNB.Update env mnb mn).2.2.1.addr = mnb.addr ∧
      (MNB.Update env mnb mn).2.2.1.pubKeyMerchantnode =
        mnb.pubKeyMerchantnode ∧
      (MNB.Update env mnb mn).2.2.1.sigTime = mnb.sigTime ∧
      (MNB.Update env mnb mn).2.2.1.nProtocolVersion = mnb.nProtocolVersion ∧
      (MNB.Update env mnb mn).2.2.1.vchSig = mnb.vchSig ∧
      (MNB.Update env mnb mn).2.2.1.nPoSeBanScore = 0 ∧
      (MNB.Update env mnb mn).2.2.1.nPoSeBanHeight = 0 := by
  intro env mnb mn hs hlt hk hsig hfm hbw
  simp only [MNB.Update]
  rw [if_neg (show ¬(mn.sigTime = mnb.sigTime ∧ ¬mnb.fRecovery = true) by
    rintro ⟨h1, -⟩; omega)]
  rw [if_neg (show ¬mn.sigTime > mnb.sigTime by omega)]
  rw [if_neg (show ¬(MN.Check env mn false).IsPoSeBanned by
    simp only [MN.IsPoSeBanned, check_spent_state env mn false hs]
    simp)]
  rw [if_neg (show ¬((MN.Check env mn false).pubKeyCollateralAddress ≠
      mnb.pubKeyCollateralAddress) by
    rw [check_pubKeyCollateralAddress, hk]
    simp)]
  rw [if_neg (show ¬((mnb.CheckSignature env).1 = false) by simp [hsig])]
  rw [if_pos (show
      ¬(MN.Check env mn false).IsBroadcastedWithin env env.minMnbSeconds ∨
        (env.fMerchantNode = true ∧
          mnb.pubKeyMerchantnode = env.activePubKeyMerchantnode) from
    Or.inl (by simp only [MN.IsBroadcastedWithin, check_sigTime]; exact hbw))]
  obtain ⟨u1, u2, u3, u4, u5, u6, u7, u8, u9⟩ :=
    ufnb_spent env (MN.Check env mn false) mnb (check_spent_state env mn false hs)
      (by rw [check_sigTime]; exact hlt) hfm
  rw [if_pos u1]
  dsimp only
  refine ⟨rfl, rfl, rfl, ?_, ?_, ?_, ?_, ?_, ?_, ?_, ?_⟩
  · exact check_spent_state env _ false u2
  · rw [check_addr]
    exact u3
  · rw [check_pubKeyMerchantnode]
    exact u4
  · rw [check_sigTime]
    exact u5
  · rw [check_nProtocolVersion]
    exact u6
  · rw [check_vchSig]
    exact u7
  · rw [(check_spent_score env _ false u2).1]
    exact u8
  · rw [(check_spent_score env _ false u2).2]
    exact u9

/-- Claim C10 witness: the amended acceptance at concrete inputs. -/
theorem claim_C10_witness :
    (MNB.Update envBase mnbBase mnSpent).1 = true ∧
    (MNB.Update envBase mnbBase mnSpent).2.1 = 0 ∧
    (MNB.Update envBase mnbBase mnSpent).2.2.2 = true ∧
    (MNB.Update envBase mnbBase mnSpent).2.2.1.nActiveState =
      MNState.OUTPOINT_SPENT ∧
    (MNB.Update envBase mnbBase mnSpent).2.2.1.addr = mnbBase.addr ∧
    (MNB.Update envBase mnbBase mnSpent).2.2.1.pubKeyMerchantnode =
      mnbBase.pubKeyMerchantnode ∧
    (MNB.Update envBase mnbBase mnSpent).2.2.1.sigTime = mnbBase.sigTime ∧
    (MNB.Update envBase mnbBase mnSpent).2.2.1.nProtocolVersion =
      mnbBase.nProtocolVersion ∧
    (MNB.Update envBase mnbBase mnSpent).2.2.1.vchSig = mnbBase.vchSig ∧
    (MNB.Update envBase mnbBase mnSpent).2.2.1.nPoSeBanScore = 0 ∧
    (MNB.Update envBase mnbBase mnSpent).2.2.1.nPoSeBanHeight = 0 :=
  claim_C10 envBase mnbBase mnSpent rfl (by decide) rfl rfl rfl (by decide)
